import Mathlib

/-!
Shallow embedding of the layout/composition engine of `image_generator.py`
(signmaker repository), together with theorems settling the spec's claims
about it.

Conventions of the embedding:
* Python floats are modelled as exact rationals (`ℚ`); numeric literals such
  as `3.2` or `0.08` appear as the rationals `16/5`, `2/25`, ….
* Python exceptions are modelled by `Except GenError` (or, where the source
  mutates global state before raising, by a pair of the final state and an
  `Option GenError`).
* The CSV file read by `_load_layout_bounds` is modelled as an optional list
  of rows (`none` = the file does not exist); each row maps a CSV column
  name to an optional string (`Option String`, with `none` standing for
  Python's `None`, which `csv.DictReader` supplies for short rows).
* The module-level dict `LAYOUT_BOUNDS` is modelled by explicit state
  passing: functions that consult it take the current table and return the
  updated one.
-/

namespace SignMaker

/-- Python exceptions that the embedded code can raise. -/
inductive GenError where
  /-- Python built-in `KeyError` (raised by a failing dict lookup). -/
  | keyError (key : String)
  /-- Python built-in `ValueError` (raised by `float()` on an unparsable string). -/
  | valueError (s : String)
  /-- Python built-in `TypeError` (raised by `float(None)`). -/
  | typeError
  /-- Python built-in `FileNotFoundError`. -/
  | fileNotFoundError (path : String)
  deriving DecidableEq, Repr

/-- `true` exactly when the error is the spec's `ConfigurationError`. The
source defines no such class, so no constructor of `GenError` qualifies. -/
def GenError.isConfigurationError : GenError → Bool := fun _ => false

/-- A value that can appear as the second argument of Python's `dict.get` or
as a CSV cell handed to `float()`: an int default, a string cell, or `None`. -/
inductive PyVal where
  | int (n : Int)
  | str (s : String)
  | pynone
  deriving DecidableEq, Repr

/-- One CSV row as produced by `csv.DictReader`: every header column is a key;
its value is the cell string, or `none` for Python `None` (short row). -/
def Row := List (String × Option String)

/-- `row.get(field, default)` for a numeric field: the stored cell if the
column exists in the header, else the int default `0`. -/
def rowGetNum (row : Row) (field : String) : PyVal :=
  match row.lookup field with
  | some (some s) => .str s
  | some none => .pynone
  | none => .int 0

/-- `row.get(field, default)` for a key field: the stored cell if the column
exists in the header, else the string default. -/
def rowGetKey (row : Row) (field : String) (dflt : String) : Option String :=
  match row.lookup field with
  | some v => v
  | none => some dflt

/-- All characters are decimal digits. -/
def allDigits (l : List Char) : Bool := l.all (fun c => c.isDigit)

/-- Numeric value of a digit string. -/
def natOfDigits (l : List Char) : Nat := l.foldl (fun a c => a * 10 + (c.toNat - 48)) 0

/-- Python's `float()` on a plain decimal literal (optional sign, digits,
optional fractional part); exponents, `inf`/`nan` and surrounding whitespace
are not modelled — every string the claims touch is either a plain decimal
or unparsable. Returns `none` when `float()` would raise `ValueError`. -/
def parseRat (s : String) : Option ℚ :=
  let cs := s.data
  let (sgn, body) : ℚ × List Char :=
    match cs with
    | '-' :: r => (-1, r)
    | '+' :: r => (1, r)
    | _ => (1, cs)
  match body.splitOn '.' with
  | [ip] =>
      if ip ≠ [] ∧ allDigits ip then some (sgn * natOfDigits ip) else none
  | [ip, fp] =>
      if (ip ≠ [] ∨ fp ≠ []) ∧ allDigits ip ∧ allDigits fp then
        some (sgn * ((natOfDigits ip : ℚ) + (natOfDigits fp : ℚ) / 10 ^ fp.length))
      else none
  | _ => none

/-- Python's `float()` applied to a `dict.get` result. -/
def pyFloat : PyVal → Except GenError ℚ
  | .int n => .ok (n : ℚ)
  | .pynone => .error .typeError
  | .str s =>
      match parseRat s with
      | some q => .ok q
      | none => .error (.valueError s)

/-- A rectangle in template coordinates (the dict
`{"x": ..., "y": ..., "width": ..., "height": ...}` of `_load_layout_bounds`). -/
structure Rect where
  x : ℚ
  y : ℚ
  width : ℚ
  height : ℚ
  deriving DecidableEq, Repr

/-- The 5-tuple key of `LAYOUT_BOUNDS`:
(template, size, orientation, layout_mode, element). Components are
`Option String` because a short CSV row can contribute Python `None`. -/
def LayoutKey := Option String × Option String × Option String × Option String × Option String

instance : DecidableEq LayoutKey := by
  unfold LayoutKey
  infer_instance

/-- Key built from ordinary strings, as at the lookup sites in
`_calculate_layout`. -/
def mkKey (template size orientation layout_mode element : String) : LayoutKey :=
  (some template, some size, some orientation, some layout_mode, some element)

/-- The `LAYOUT_BOUNDS` dict. Assignment is modelled by consing, lookup by
first match, so a later assignment to the same key shadows an earlier one. -/
def Table := List (LayoutKey × Rect)

/-- `LAYOUT_BOUNDS[key] = rect`. -/
def tableInsert (t : Table) (k : LayoutKey) (v : Rect) : Table := (k, v) :: t

/-- `LAYOUT_BOUNDS.get(key)` / `key in LAYOUT_BOUNDS`. -/
def tableLookup (t : Table) (k : LayoutKey) : Option Rect :=
  match t.find? (fun p => decide (p.1 = k)) with
  | some p => some p.2
  | none => none

/-- The key a CSV row is stored under (`_load_layout_bounds`, lines 121-127). -/
def rowKey (row : Row) : LayoutKey :=
  (rowGetKey row "template" "main",
   rowGetKey row "size" "",
   rowGetKey row "orientation" "landscape",
   rowGetKey row "layout_mode" "",
   rowGetKey row "element" "")

/-- The rect a CSV row is stored as (`_load_layout_bounds`, lines 128-133):
`float(row.get(c, 0))` for each of x, y, width, height, raising on the first
cell `float()` cannot convert. -/
def parseRect (row : Row) : Except GenError Rect := do
  let x ← pyFloat (rowGetNum row "x")
  let y ← pyFloat (rowGetNum row "y")
  let w ← pyFloat (rowGetNum row "width")
  let h ← pyFloat (rowGetNum row "height")
  return ⟨x, y, w, h⟩

/-- The row loop of `_load_layout_bounds`: each row is inserted in turn; a
row whose numeric cells do not convert raises, keeping the insertions made
so far (Python mutates the global dict row by row). -/
def loadRows (t : Table) : List Row → Table × Option GenError
  | [] => (t, none)
  | row :: rest =>
      match parseRect row with
      | .error e => (t, some e)
      | .ok r => loadRows (tableInsert t (rowKey row) r) rest

/-- `_load_layout_bounds()`: returns unchanged if the CSV file does not
exist, else folds the rows into the (never cleared) global table. The
result pairs the final table with the exception, if one was raised. -/
def load_layout_bounds (t : Table) (file : Option (List Row)) : Table × Option GenError :=
  match file with
  | none => (t, none)
  | some rows => loadRows t rows

/-- `SIZES` (width_mm, height_mm, is_circular). -/
def SIZES : List (String × (ℚ × ℚ × Bool)) :=
  [("saville", (115, 95, false)),
   ("dick", (140, 90, false)),
   ("barzan", (194, 143, false)),
   ("dracula", (95, 95, true)),
   ("baby_jesus", (290, 190, false))]

/-- `TEMPLATE_SIGN_BOUNDS` (x, y, width, height). -/
def TEMPLATE_SIGN_BOUNDS : List (String × (ℚ × ℚ × ℚ × ℚ)) :=
  [("saville", (30, 24, 93, 73)),
   ("dick", (25, 30, 110, 60)),
   ("barzan", (25, 25, 164, 113)),
   ("dracula", (37, 27, 85, 85)),
   ("baby_jesus", (25, 25, 240, 140))]

/-- The dataclass `SignBounds`. -/
structure SignBounds where
  x : ℚ
  y : ℚ
  width : ℚ
  height : ℚ
  is_circular : Bool := false
  padding : ℚ := 5
  deriving DecidableEq, Repr

def SignBounds.inner_x (b : SignBounds) : ℚ := b.x + b.padding

def SignBounds.inner_y (b : SignBounds) : ℚ := b.y + b.padding

def SignBounds.inner_width (b : SignBounds) : ℚ := b.width - 2 * b.padding

def SignBounds.inner_height (b : SignBounds) : ℚ := b.height - 2 * b.padding

def SignBounds.center_x (b : SignBounds) : ℚ := b.x + b.width / 2

def SignBounds.center_y (b : SignBounds) : ℚ := b.y + b.height / 2

/-- `_get_sign_bounds(size, orientation)`. `SIZES[size]` is a Python dict
lookup, which raises `KeyError` on an unknown key. -/
def get_sign_bounds (size : String) (orientation : String) : Except GenError SignBounds :=
  match SIZES.lookup size with
  | none => .error (.keyError size)
  | some (width_mm, height_mm, is_circular) =>
      let (sign_x, sign_y, sign_w, sign_h) :=
        match TEMPLATE_SIGN_BOUNDS.lookup size with
        | some b => b
        | none =>
            let margin : ℚ := 20
            (margin, margin, width_mm - 2 * margin, height_mm - 2 * margin)
      let (sign_w, sign_h) :=
        if size = "baby_jesus" ∧ orientation = "portrait" then (sign_h, sign_w)
        else (sign_w, sign_h)
      .ok { x := sign_x, y := sign_y, width := sign_w, height := sign_h,
            is_circular := is_circular,
            padding := if is_circular then 4 else 3 }

/-- One entry of `LayoutResult.text_elements` (the dicts appended by
`_calculate_layout`). -/
structure TextElem where
  text : String
  x : ℚ
  y : ℚ
  font_size : ℚ
  anchor : String
  deriving DecidableEq, Repr

/-- The dataclass `LayoutResult`. -/
structure LayoutResult where
  icon_x : ℚ
  icon_y : ℚ
  icon_width : ℚ
  icon_height : ℚ
  text_elements : List TextElem
  deriving DecidableEq, Repr

/-- The text-stacking loop of the B/C fallback branch: starting at `text_y`,
each line is placed and `text_y` advances by `max_font_size + 2`. -/
def stackText (cx max_font_size : ℚ) : ℚ → List String → List TextElem
  | _, [] => []
  | text_y, line :: rest =>
      ⟨line, cx, text_y, max_font_size, "middle"⟩ ::
        stackText cx max_font_size (text_y + max_font_size + 2) rest

/-- The body of `_calculate_layout` after the `_load_layout_bounds()` call,
evaluated against the reloaded table `lb` (lines 176-269). -/
def calculate_layout_core (lb : Table) (bounds : SignBounds) (layout_mode : String)
    (text_lines : List String) (icon_scale text_scale : ℚ)
    (size orientation : String) : LayoutResult :=
  let active_lines := text_lines.filter (fun t => t ≠ "")
  let icon_key := mkKey "main" size orientation layout_mode "icon"
  match tableLookup lb icon_key with
  | some icon_bounds =>
      let base_width := icon_bounds.width
      let base_height := icon_bounds.height
      let base_x := icon_bounds.x
      let base_y := icon_bounds.y
      let icon_width := base_width * icon_scale
      let icon_height := base_height * icon_scale
      let icon_x := base_x + (base_width - icon_width) / 2
      let icon_y := base_y + (base_height - icon_height) / 2
      let text_elements := active_lines.enum.filterMap (fun p =>
        let text_key := mkKey "main" size orientation layout_mode
          ("text_" ++ toString (p.1 + 1))
        match tableLookup lb text_key with
        | some tb =>
            let num_chars : ℚ := if p.2 ≠ "" then (p.2.length : ℚ) else 1
            let font_size := tb.width / (num_chars * (16 / 5))
            let max_by_height := tb.height / 3
            some ⟨p.2, tb.x + tb.width / 2, tb.y + tb.height * (3 / 4),
                  min font_size max_by_height * text_scale, "middle"⟩
        | none => none)
      ⟨icon_x, icon_y, icon_width, icon_height, text_elements⟩
  | none =>
      let inner_w := bounds.inner_width
      let inner_h := bounds.inner_height
      let max_font_size := 5 * text_scale
      if layout_mode = "A" then
        let icon_width := inner_w * (7 / 10) * icon_scale
        let icon_height := inner_h * (7 / 10) * icon_scale
        let icon_x := bounds.center_x - icon_width / 2
        let icon_y := bounds.center_y - icon_height / 2
        ⟨icon_x, icon_y, icon_width, icon_height, []⟩
      else if layout_mode = "B" ∨ layout_mode = "C" then
        let icon_height := inner_h * (9 / 10) * icon_scale
        let icon_width := icon_height
        let icon_x := bounds.center_x - icon_width / 2
        let icon_y := bounds.center_y - icon_height / 2 + icon_height * (2 / 25)
        let text_elements :=
          if active_lines ≠ [] then
            let icon_bottom := icon_y + icon_height
            stackText bounds.center_x max_font_size
              (icon_bottom + inner_h * (1 / 20)) active_lines
          else []
        ⟨icon_x, icon_y, icon_width, icon_height, text_elements⟩
      else
        let icon_width := inner_w * (3 / 5) * icon_scale
        let icon_height := inner_h * (3 / 5) * icon_scale
        let icon_x := bounds.center_x - icon_width / 2
        let icon_y := bounds.center_y - icon_height / 2
        ⟨icon_x, icon_y, icon_width, icon_height, []⟩

/-- `_calculate_layout(...)`: reloads the layout-bounds table from the CSV
file (threaded explicitly), propagates an exception raised by the reload,
and otherwise runs the placement computation on the reloaded table. -/
def calculate_layout (t : Table) (file : Option (List Row)) (bounds : SignBounds)
    (layout_mode : String) (text_lines : List String) (icon_scale text_scale : ℚ)
    (size orientation : String) : Table × Except GenError LayoutResult :=
  let (t, err) := load_layout_bounds t file
  match err with
  | some e => (t, .error e)
  | none =>
      (t, .ok (calculate_layout_core t bounds layout_mode text_lines
        icon_scale text_scale size orientation))

/-- An icon asset as `_load_icon` resolves it: a vector (`svg`) or raster
(`png`) asset with its intrinsic width and height (the SVG root's
width/height attributes, resp. the PIL image dimensions). -/
inductive IconData where
  | svg (w h : ℚ)
  | png (w h : ℚ)
  deriving DecidableEq, Repr

/-- The placement `_inject_icon` computes for a vector icon: the
translate offsets and the uniform scale of the injected group's
`transform="translate(offset_x,offset_y) scale(scale)"`. -/
structure SvgPlacement where
  offset_x : ℚ
  offset_y : ℚ
  scale : ℚ
  deriving DecidableEq, Repr

/-- `_inject_icon` (lines 304-318): uniform scale `min(width/icon_w,
height/icon_h)` (with Python's `if icon_w else 1` guard on a zero intrinsic
dimension), icon centered in the target rectangle. -/
def inject_icon (icon_w icon_h x y width height : ℚ) : SvgPlacement :=
  let scale_x := if icon_w ≠ 0 then width / icon_w else 1
  let scale_y := if icon_h ≠ 0 then height / icon_h else 1
  let scale := min scale_x scale_y
  let scaled_w := icon_w * scale
  let scaled_h := icon_h * scale
  let offset_x := x + (width - scaled_w) / 2
  let offset_y := y + (height - scaled_h) / 2
  ⟨offset_x, offset_y, scale⟩

/-- The placement `_inject_png_icon` computes for a raster icon: the
`x`/`y`/`width`/`height` attributes of the embedded `<image>` node. -/
structure PngPlacement where
  x : ℚ
  y : ℚ
  width : ℚ
  height : ℚ
  deriving DecidableEq, Repr

/-- `_inject_png_icon` (lines 328-343): the same uniform-scale-and-center
arithmetic as `_inject_icon`, recorded as the image node's attributes. -/
def inject_png_icon (orig_w orig_h x y width height : ℚ) : PngPlacement :=
  let scale_x := if orig_w ≠ 0 then width / orig_w else 1
  let scale_y := if orig_h ≠ 0 then height / orig_h else 1
  let scale := min scale_x scale_y
  let scaled_w := orig_w * scale
  let scaled_h := orig_h * scale
  let offset_x := x + (width - scaled_w) / 2
  let offset_y := y + (height - scaled_h) / 2
  ⟨offset_x, offset_y, scaled_w, scaled_h⟩

/-- One icon injection performed by the facade loop: the icon filename, the
target rectangle handed to the injector, and the computed placement. -/
structure Injection where
  file : String
  x : ℚ
  y : ℚ
  width : ℚ
  height : ℚ
  deriving DecidableEq, Repr

/-- The `for icon_file in icon_files` loop of the facades (lines 413-418 /
516-521): each filename is resolved by `_load_icon` through the
environment; unresolved icons are skipped with a warning, resolved ones are
injected at the (loop-invariant) target rectangle. -/
def injectIcons (icons : String → Option IconData) (files : List String)
    (x y width height : ℚ) : List Injection :=
  files.filterMap (fun f =>
    match icons f with
    | some _ => some ⟨f, x, y, width, height⟩
    | none => none)

/-- The on-disk environment the facades consult: the template filenames
present under `ASSETS_DIR`, and `_load_icon`'s resolution of an icon
filename (with its extension fallback) to an asset. -/
structure RenderEnv where
  templates : List String
  icons : String → Option IconData

/-- A product record (`dict`): `none` models an absent key. Scale and
offset fields hold the numeric value `float()` would produce. -/
structure Product where
  size : Option String := none
  color : Option String := none
  orientation : Option String := none
  layout_mode : Option String := none
  icon_files : Option String := none
  text_line_1 : Option String := none
  text_line_2 : Option String := none
  text_line_3 : Option String := none
  icon_scale : Option ℚ := none
  text_scale : Option ℚ := none
  icon_offset_x : Option ℚ := none
  icon_offset_y : Option ℚ := none
  font : Option String := none

/-- `float(product.get(k, 1.0) or 1.0)`: a missing key or a falsy (zero)
value yields the default 1.0. -/
def getScale (v : Option ℚ) : ℚ :=
  match v with
  | none => 1
  | some q => if q = 0 then 1 else q

/-- `float(product.get(k, 0.0) or 0.0)`: a missing key or a falsy (zero)
value yields 0.0. -/
def getOffset (v : Option ℚ) : ℚ :=
  match v with
  | none => 0
  | some q => if q = 0 then 0 else q

/-- Python `str.strip()`: drop leading and trailing whitespace. -/
def pyStrip (s : String) : String :=
  String.mk (((s.data.dropWhile Char.isWhitespace).reverse.dropWhile
    Char.isWhitespace).reverse)

/-- Python `str.lower()`. -/
def pyLower (s : String) : String := String.mk (s.data.map Char.toLower)

/-- Python `str.upper()`. -/
def pyUpper (s : String) : String := String.mk (s.data.map Char.toUpper)

/-- Python `s.split(",")` (split on every comma, keeping empty pieces). -/
def pySplitComma (s : String) : List String :=
  (s.data.splitOn ',').map String.mk

/-- `(product.get("icon_files") or "").split(",")`, stripped and filtered
(lines 372-373). -/
def productIconFiles (p : Product) : List String :=
  ((pySplitComma (p.icon_files.getD "")).map pyStrip).filter (fun f => f ≠ "")

/-- `product.get("size", "saville").lower()`. -/
def productSize (p : Product) : String := pyLower (p.size.getD "saville")

/-- `product.get("color", "silver").lower()`. -/
def productColor (p : Product) : String := pyLower (p.color.getD "silver")

/-- `product.get("orientation", "landscape").lower()`. -/
def productOrientation (p : Product) : String := pyLower (p.orientation.getD "landscape")

/-- `product.get("layout_mode", "A").upper()`. -/
def productLayoutMode (p : Product) : String := pyUpper (p.layout_mode.getD "A")

/-- `text_lines` as assembled at lines 375-379. -/
def productTextLines (p : Product) : List String :=
  [p.text_line_1.getD "", p.text_line_2.getD "", p.text_line_3.getD ""]

/-- The outcome of a facade call, up to (and including) icon injection:
the layout result, the offset-adjusted final icon position, and the icon
injections performed. (Text insertion and rasterization reuse
`layout.text_elements` verbatim and are outside the claims' scope.) -/
structure PlacementResult where
  layout : LayoutResult
  final_icon_x : ℚ
  final_icon_y : ℚ
  injections : List Injection
  deriving DecidableEq, Repr

/-- Template filename composed by `generate_product_image` (lines 388-391). -/
def productTemplateName (size color orientation template_type : String) : String :=
  if size = "baby_jesus" ∧ orientation = "portrait" then
    color ++ "_" ++ size ++ "_portrait_" ++ template_type ++ ".svg"
  else
    color ++ "_" ++ size ++ "_" ++ template_type ++ ".svg"

/-- `generate_product_image(product, template_type)` down to icon
injection (lines 368-418): field extraction with defaults, template
resolution (`FileNotFoundError` when absent), geometry, layout (with the
CSV reload threaded through), the manual offset applied on top of the
computed icon position, and the injection loop. -/
def generate_product_image (env : RenderEnv) (t : Table) (file : Option (List Row))
    (p : Product) (template_type : String) : Table × Except GenError PlacementResult :=
  let size := productSize p
  let color := productColor p
  let orientation := productOrientation p
  let layout_mode := productLayoutMode p
  let icon_files := productIconFiles p
  let text_lines := productTextLines p
  let icon_scale := getScale p.icon_scale
  let text_scale := getScale p.text_scale
  let icon_offset_x := getOffset p.icon_offset_x
  let icon_offset_y := getOffset p.icon_offset_y
  let template_name := productTemplateName size color orientation template_type
  if template_name ∉ env.templates then
    (t, .error (.fileNotFoundError template_name))
  else
    match get_sign_bounds size orientation with
    | .error e => (t, .error e)
    | .ok bounds =>
        match calculate_layout t file bounds layout_mode text_lines
            icon_scale text_scale size orientation with
        | (t, .error e) => (t, .error e)
        | (t, .ok layout) =>
            let final_icon_x := layout.icon_x + icon_offset_x
            let final_icon_y := layout.icon_y + icon_offset_y
            (t, .ok ⟨layout, final_icon_x, final_icon_y,
              injectIcons env.icons icon_files final_icon_x final_icon_y
                layout.icon_width layout.icon_height⟩)

/-- Template filename composed by `generate_master_svg_for_product`
(lines 483-495): the master-design template, falling back to the `main`
template when the master file is absent. -/
def masterTemplateName (env : RenderEnv) (size color orientation : String) : String :=
  let master :=
    if size = "baby_jesus" ∧ orientation = "portrait" then
      color ++ "_" ++ size ++ "_portrait_master_design_file.svg"
    else
      color ++ "_" ++ size ++ "_master_design_file.svg"
  if master ∈ env.templates then master
  else if size = "baby_jesus" ∧ orientation = "portrait" then
    color ++ "_" ++ size ++ "_portrait_main.svg"
  else
    color ++ "_" ++ size ++ "_main.svg"

/-- `generate_master_svg_for_product(product)` down to icon injection
(lines 463-521): identical pipeline to `generate_product_image` except for
the master-template resolution with its fallback. -/
def generate_master_svg_for_product (env : RenderEnv) (t : Table)
    (file : Option (List Row)) (p : Product) : Table × Except GenError PlacementResult :=
  let size := productSize p
  let color := productColor p
  let orientation := productOrientation p
  let layout_mode := productLayoutMode p
  let icon_files := productIconFiles p
  let text_lines := productTextLines p
  let icon_scale := getScale p.icon_scale
  let text_scale := getScale p.text_scale
  let icon_offset_x := getOffset p.icon_offset_x
  let icon_offset_y := getOffset p.icon_offset_y
  let template_name := masterTemplateName env size color orientation
  if template_name ∉ env.templates then
    (t, .error (.fileNotFoundError template_name))
  else
    match get_sign_bounds size orientation with
    | .error e => (t, .error e)
    | .ok bounds =>
        match calculate_layout t file bounds layout_mode text_lines
            icon_scale text_scale size orientation with
        | (t, .error e) => (t, .error e)
        | (t, .ok layout) =>
            let final_icon_x := layout.icon_x + icon_offset_x
            let final_icon_y := layout.icon_y + icon_offset_y
            (t, .ok ⟨layout, final_icon_x, final_icon_y,
              injectIcons env.icons icon_files final_icon_x final_icon_y
                layout.icon_width layout.icon_height⟩)

/-! ## Derived notions used by the claims -/

/-- The x coordinate of the center of the icon rectangle of a layout result. -/
def LayoutResult.centerX (r : LayoutResult) : ℚ := r.icon_x + r.icon_width / 2

/-- The y coordinate of the center of the icon rectangle of a layout result. -/
def LayoutResult.centerY (r : LayoutResult) : ℚ := r.icon_y + r.icon_height / 2

/-- The same product with both icon offsets set to zero. -/
def zeroOffsets (p : Product) : Product :=
  { p with icon_offset_x := some 0, icon_offset_y := some 0 }

/-- The value the current CSV contents associate to a key: the parsed rect of
the last row stored under that key, if any (later rows shadow earlier ones,
as consecutive dict assignments do). Spec-side characterization used to state
what a from-scratch reload would contain. -/
def fileValue : List Row → LayoutKey → Option Rect
  | [], _ => none
  | row :: rows, k =>
      match fileValue rows k with
      | some v => some v
      | none => if rowKey row = k then (parseRect row).toOption else none

/-- First-defined choice between two optional rects. -/
def optOr (a b : Option Rect) : Option Rect :=
  match a with
  | some v => some v
  | none => b

/-! ## Helper lemmas -/

theorem tableLookup_insert (t : Table) (k k' : LayoutKey) (v : Rect) :
    tableLookup (tableInsert t k v) k' = if k = k' then some v else tableLookup t k' := by
  by_cases h : k = k' <;> simp [tableLookup, tableInsert, List.find?, h]

theorem loadRows_ok (rows : List Row) : ∀ t : Table,
    (∀ row ∈ rows, (parseRect row).isOk) → (loadRows t rows).2 = none := by
  induction rows with
  | nil => intro t _; rfl
  | cons row rest ih =>
      intro t hall
      have h1 : (parseRect row).isOk := hall row (by simp)
      rcases hp : parseRect row with e | r
      · rw [hp] at h1; simp [Except.isOk, Except.toBool] at h1
      · simp only [loadRows, hp]
        exact ih _ (fun rr hr => hall rr (by simp [hr]))

theorem loadRows_lookup (rows : List Row) : ∀ (t : Table) (k : LayoutKey),
    (loadRows t rows).2 = none →
    tableLookup (loadRows t rows).1 k = optOr (fileValue rows k) (tableLookup t k) := by
  induction rows with
  | nil => intro t k _; simp [loadRows, fileValue, optOr]
  | cons row rest ih =>
      intro t k hok
      rcases hp : parseRect row with e | r
      · simp [loadRows, hp] at hok
      · simp only [loadRows, hp] at hok ⊢
        rw [ih (tableInsert t (rowKey row) r) k hok, tableLookup_insert]
        rcases hf : fileValue rest k with _ | v
        · by_cases hk : rowKey row = k <;>
            simp [fileValue, optOr, hf, hk, hp, Except.toOption]
        · simp [fileValue, optOr, hf]

theorem injectIcons_mem (icons : String → Option IconData) (files : List String)
    (x y w h : ℚ) (inj : Injection) (hi : inj ∈ injectIcons icons files x y w h) :
    inj.x = x ∧ inj.y = y ∧ inj.width = w ∧ inj.height = h := by
  obtain ⟨f, hfin, hf⟩ := List.mem_filterMap.mp hi
  cases hic : icons f with
  | none => rw [hic] at hf; cases hf
  | some d =>
      rw [hic] at hf
      injection hf with hf2
      subst hf2
      exact ⟨rfl, rfl, rfl, rfl⟩

theorem generate_product_image_injections (env : RenderEnv) (t : Table)
    (file : Option (List Row)) (p : Product) (template_type : String) (r : PlacementResult)
    (hr : (generate_product_image env t file p template_type).2 = .ok r) :
    r.injections = injectIcons env.icons (productIconFiles p) r.final_icon_x r.final_icon_y
      r.layout.icon_width r.layout.icon_height := by
  unfold generate_product_image at hr
  dsimp only at hr
  split at hr
  · cases hr
  · split at hr
    · cases hr
    · split at hr
      · cases hr
      · injection hr with hr2
        subst hr2
        rfl

theorem generate_master_injections (env : RenderEnv) (t : Table)
    (file : Option (List Row)) (p : Product) (r : PlacementResult)
    (hr : (generate_master_svg_for_product env t file p).2 = .ok r) :
    r.injections = injectIcons env.icons (productIconFiles p) r.final_icon_x r.final_icon_y
      r.layout.icon_width r.layout.icon_height := by
  unfold generate_master_svg_for_product at hr
  dsimp only at hr
  split at hr
  · cases hr
  · split at hr
    · cases hr
    · split at hr
      · cases hr
      · injection hr with hr2
        subst hr2
        rfl

/-! ## Claim C1: centroid invariance under icon_scale -/

/-- Claim C1, counterexample: in geometric-fallback mode "B" with
`icon_scale = 1/2` (inside `[0.5, 1.5]`), the y coordinate of the icon
rectangle's center differs from the unscaled run's, because the B/C branch
adds the scale-dependent correction `icon_height * 0.08` to `icon_y`. -/
theorem C1_counterexample :
    (calculate_layout [] none ⟨0, 0, 100, 100, false, 3⟩ "B" [] (1/2) 1 ""
        "landscape").2.toOption.map LayoutResult.centerY ≠
      (calculate_layout [] none ⟨0, 0, 100, 100, false, 3⟩ "B" [] 1 1 ""
        "landscape").2.toOption.map LayoutResult.centerY := by
  simp [calculate_layout, load_layout_bounds, calculate_layout_core, tableLookup,
    SignBounds.inner_height, SignBounds.center_y, LayoutResult.centerY, Except.toOption,
    Option.map]
  norm_num

/-- Claim C1 (amended): for `icon_scale` in `[0.5, 1.5]` and fixed bounds and
layout mode, the icon rectangle's center is scale-invariant on the
data-driven path and in every geometric-fallback mode other than "B"/"C";
in modes "B" and "C" only the x coordinate of the center is invariant, while
the y coordinate shifts by `inner_height * 0.9 * 0.08 * (icon_scale - 1)`. -/
theorem C1_centroid_invariance_amended (lb : Table) (bounds : SignBounds) (mode : String)
    (lines : List String) (s tscale : ℚ) (size orientation : String)
    (hs1 : 1/2 ≤ s) (hs2 : s ≤ 3/2) :
    ((tableLookup lb (mkKey "main" size orientation mode "icon")).isSome →
       (calculate_layout_core lb bounds mode lines s tscale size orientation).centerX =
         (calculate_layout_core lb bounds mode lines 1 tscale size orientation).centerX ∧
       (calculate_layout_core lb bounds mode lines s tscale size orientation).centerY =
         (calculate_layout_core lb bounds mode lines 1 tscale size orientation).centerY) ∧
    (tableLookup lb (mkKey "main" size orientation mode "icon") = none →
       (mode ≠ "B" ∧ mode ≠ "C" →
         (calculate_layout_core lb bounds mode lines s tscale size orientation).centerX =
           (calculate_layout_core lb bounds mode lines 1 tscale size orientation).centerX ∧
         (calculate_layout_core lb bounds mode lines s tscale size orientation).centerY =
           (calculate_layout_core lb bounds mode lines 1 tscale size orientation).centerY) ∧
       ((mode = "B" ∨ mode = "C") →
         (calculate_layout_core lb bounds mode lines s tscale size orientation).centerX =
           (calculate_layout_core lb bounds mode lines 1 tscale size orientation).centerX ∧
         (calculate_layout_core lb bounds mode lines s tscale size orientation).centerY -
           (calculate_layout_core lb bounds mode lines 1 tscale size orientation).centerY =
           bounds.inner_height * (9/10) * (2/25) * (s - 1))) := by
  constructor
  · intro h
    obtain ⟨ib, hib⟩ := Option.isSome_iff_exists.mp h
    constructor <;>
      simp [calculate_layout_core, hib, LayoutResult.centerX, LayoutResult.centerY] <;> ring
  · intro h
    constructor
    · rintro ⟨hB, hC⟩
      by_cases hA : mode = "A"
      · subst hA
        constructor <;>
          simp [calculate_layout_core, h, LayoutResult.centerX, LayoutResult.centerY] <;> ring
      · constructor <;>
          simp [calculate_layout_core, h, hA, hB, hC, LayoutResult.centerX,
            LayoutResult.centerY] <;> ring
    · rintro (hB | hC)
      · subst hB
        constructor <;>
          simp [calculate_layout_core, h, LayoutResult.centerX, LayoutResult.centerY] <;> ring
      · subst hC
        constructor <;>
          simp [calculate_layout_core, h, LayoutResult.centerX, LayoutResult.centerY] <;> ring

/-- Claim C1, witness: the amended theorem applied at mode "A", scale 1/2. -/
theorem C1_centroid_witness :
    (calculate_layout_core [] ⟨0, 0, 100, 100, false, 3⟩ "A" [] (1/2) 1 ""
        "landscape").centerX =
      (calculate_layout_core [] ⟨0, 0, 100, 100, false, 3⟩ "A" [] 1 1 ""
        "landscape").centerX ∧
    (calculate_layout_core [] ⟨0, 0, 100, 100, false, 3⟩ "A" [] (1/2) 1 ""
        "landscape").centerY =
      (calculate_layout_core [] ⟨0, 0, 100, 100, false, 3⟩ "A" [] 1 1 ""
        "landscape").centerY :=
  ((C1_centroid_invariance_amended [] ⟨0, 0, 100, 100, false, 3⟩ "A" [] (1/2) 1 ""
      "landscape" (by norm_num) (by norm_num)).2 (by rfl)).1 (by decide)

/-! ## Claim C2: data-driven text sizing -/

/-- Claim C2: when a data-driven icon entry exists and the i-th active
(non-empty) text line has a `text_{i+1}` entry with box `tb`, the layout
contains a text element anchored at the box's horizontal center and 75% of
its height, with font size `min(width / (chars * 3.2), height / 3) *
text_scale` and anchor mode "middle". -/
theorem C2_text_sizing (lb : Table) (bounds : SignBounds) (mode : String)
    (lines : List String) (iscale tscale : ℚ) (size orientation : String) (i : Nat)
    (line : String) (ib tb : Rect)
    (hicon : tableLookup lb (mkKey "main" size orientation mode "icon") = some ib)
    (hline : (lines.filter (fun t => t ≠ "")).get? i = some line)
    (htext : tableLookup lb
      (mkKey "main" size orientation mode ("text_" ++ toString (i + 1))) = some tb) :
    (⟨line, tb.x + tb.width / 2, tb.y + tb.height * (3/4),
       min (tb.width / ((line.length : ℚ) * (16/5))) (tb.height / 3) * tscale,
       "middle"⟩ : TextElem)
      ∈ (calculate_layout_core lb bounds mode lines iscale tscale size
          orientation).text_elements := by
  have hmem : line ∈ lines.filter (fun t => t ≠ "") := List.get?_mem hline
  have hne : line ≠ "" := by simpa using (List.mem_filter.mp hmem).2
  simp only [calculate_layout_core, hicon]
  apply List.mem_filterMap.mpr
  refine ⟨(i, line), ?_, ?_⟩
  · apply List.get?_mem
    rw [List.get?_enum, hline]
    rfl
  · simp [htext, hne]

/-- Table for the C2 witness: an icon box and a 40 wide, 10 high text box. -/
def C2table : Table :=
  [(mkKey "main" "s" "landscape" "A" "icon", ⟨0, 0, 10, 10⟩),
   (mkKey "main" "s" "landscape" "A" "text_1", ⟨0, 20, 40, 10⟩)]

/-- Claim C2, witness: the spec's scenario — `text_scale = 2`, a 40 by 10 box
and the 4-character string "ABCD" yield font size `6.25 = 25/4`. -/
theorem C2_text_sizing_witness :
    (⟨"ABCD", 20, 55/2, 25/4, "middle"⟩ : TextElem)
      ∈ (calculate_layout_core C2table ⟨0, 0, 100, 100, false, 3⟩ "A" ["ABCD"] 1 2
          "s" "landscape").text_elements := by
  have h := C2_text_sizing C2table ⟨0, 0, 100, 100, false, 3⟩ "A" ["ABCD"] 1 2 "s"
    "landscape" 0 "ABCD" ⟨0, 0, 10, 10⟩ ⟨0, 20, 40, 10⟩ (by decide) (by decide) (by decide)
  have he : (⟨"ABCD", (0:ℚ) + 40 / 2, 20 + 10 * (3/4),
      min ((40:ℚ) / ((("ABCD".length : ℚ)) * (16/5))) (10/3) * 2, "middle"⟩ : TextElem)
      = ⟨"ABCD", 20, 55/2, 25/4, "middle"⟩ := by
    have hl : ("ABCD".length : ℚ) = 4 := by norm_num [show "ABCD".length = 4 from rfl]
    rw [hl]
    norm_num [min_def]
  rw [he] at h
  exact h

/-! ## Claim C3: orientation swap -/

/-- Claim C3: "baby_jesus" is the one size supporting portrait — its
portrait bounds swap the landscape width and height; for every other size
key the resolved geometry ignores the orientation entirely. -/
theorem C3_orientation_swap :
    (∀ size orientation, size ≠ "baby_jesus" →
      get_sign_bounds size orientation = get_sign_bounds size "landscape") ∧
    (∃ bl bp, get_sign_bounds "baby_jesus" "landscape" = .ok bl ∧
      get_sign_bounds "baby_jesus" "portrait" = .ok bp ∧
      bp.width = bl.height ∧ bp.height = bl.width) := by
  constructor
  · intro size orientation h
    unfold get_sign_bounds
    simp [h]
  · refine ⟨_, _, rfl, rfl, ?_, ?_⟩ <;> rfl

/-- Claim C3, witness: portrait is a no-op on "saville". -/
theorem C3_orientation_swap_witness :
    get_sign_bounds "saville" "portrait" = get_sign_bounds "saville" "landscape" :=
  C3_orientation_swap.1 "saville" "portrait" (by decide)

/-! ## Claim C4: unknown-size failure -/

/-- Claim C4, counterexample: an unknown size key makes the resolver fail
with Python's built-in `KeyError` from the `SIZES[size]` dict lookup — not
with a distinct, typed `ConfigurationError`, which the source never
defines. -/
theorem C4_counterexample :
    get_sign_bounds "bogus" "landscape" = .error (.keyError "bogus") ∧
    (GenError.keyError "bogus").isConfigurationError = false :=
  ⟨rfl, rfl⟩

/-- Claim C4 (amended): an unknown size key fails with the untyped built-in
`KeyError` (not a dedicated `ConfigurationError`); every known size key
succeeds, and the resolver is pure. -/
theorem C4_unknown_size_amended (size orientation : String) :
    (SIZES.lookup size = none →
      get_sign_bounds size orientation = .error (.keyError size)) ∧
    ((SIZES.lookup size).isSome → (get_sign_bounds size orientation).isOk) := by
  constructor
  · intro h
    unfold get_sign_bounds
    rw [h]
  · intro h
    unfold get_sign_bounds
    cases hl : SIZES.lookup size with
    | none => rw [hl] at h; simp at h
    | some v => rfl

/-- Claim C4, witness: the amended theorem at an unknown and a known key. -/
theorem C4_unknown_size_witness :
    get_sign_bounds "unknown_size" "landscape" = .error (.keyError "unknown_size") ∧
    (get_sign_bounds "saville" "landscape").isOk :=
  ⟨(C4_unknown_size_amended "unknown_size" "landscape").1 (by rfl),
   (C4_unknown_size_amended "saville" "landscape").2 (by rfl)⟩

/-! ## Claim C5: offset application order -/

/-- Claim C5: a product-image run equals the zero-offset run with only the
final icon position shifted by the user offset — the layout (icon rectangle
size and all text elements) is untouched, the final position is the layout
position plus the offset, and the icons are injected at that shifted
position with the layout's width and height. -/
theorem C5_offset_application (env : RenderEnv) (t : Table) (file : Option (List Row))
    (p : Product) (template_type : String) :
    (generate_product_image env t file p template_type).2 =
      ((generate_product_image env t file (zeroOffsets p) template_type).2).map (fun r0 =>
        ⟨r0.layout,
         r0.layout.icon_x + getOffset p.icon_offset_x,
         r0.layout.icon_y + getOffset p.icon_offset_y,
         injectIcons env.icons (productIconFiles p)
           (r0.layout.icon_x + getOffset p.icon_offset_x)
           (r0.layout.icon_y + getOffset p.icon_offset_y)
           r0.layout.icon_width r0.layout.icon_height⟩) := by
  unfold generate_product_image
  simp only [show productSize (zeroOffsets p) = productSize p from rfl,
    show productColor (zeroOffsets p) = productColor p from rfl,
    show productOrientation (zeroOffsets p) = productOrientation p from rfl,
    show productLayoutMode (zeroOffsets p) = productLayoutMode p from rfl,
    show productTextLines (zeroOffsets p) = productTextLines p from rfl,
    show productIconFiles (zeroOffsets p) = productIconFiles p from rfl,
    show getScale (zeroOffsets p).icon_scale = getScale p.icon_scale from rfl,
    show getScale (zeroOffsets p).text_scale = getScale p.text_scale from rfl]
  split
  · rfl
  · rcases hgb : get_sign_bounds (productSize p) (productOrientation p) with e | b
    · simp [hgb, Except.map]
    · simp only [hgb]
      rcases hcl : calculate_layout t file b (productLayoutMode p) (productTextLines p)
          (getScale p.icon_scale) (getScale p.text_scale) (productSize p)
          (productOrientation p) with ⟨t2, lr⟩
      rcases lr with e | l
      · simp [hcl, Except.map]
      · simp [hcl, Except.map]

/-! ## Claim C6: aspect-ratio-preserving injection -/

/-- Claim C6: for positive intrinsic dimensions, both the vector and the
raster injector use the uniform scale `min(W/w, H/h)`, split the leftover
space equally on both sides in each dimension, and leave zero residual
offset in the limiting dimension; the raster path places the same rectangle
the vector path does. -/
theorem C6_aspect_ratio (w h x y W H : ℚ) (hw : 0 < w) (hh : 0 < h) :
    (inject_icon w h x y W H).scale = min (W / w) (H / h) ∧
    ((inject_icon w h x y W H).offset_x - x
      = (x + W) - ((inject_icon w h x y W H).offset_x + w * (inject_icon w h x y W H).scale)) ∧
    ((inject_icon w h x y W H).offset_y - y
      = (y + H) - ((inject_icon w h x y W H).offset_y + h * (inject_icon w h x y W H).scale)) ∧
    ((inject_icon w h x y W H).scale = W / w → (inject_icon w h x y W H).offset_x = x) ∧
    ((inject_icon w h x y W H).scale = H / h → (inject_icon w h x y W H).offset_y = y) ∧
    (inject_png_icon w h x y W H).x = (inject_icon w h x y W H).offset_x ∧
    (inject_png_icon w h x y W H).y = (inject_icon w h x y W H).offset_y ∧
    (inject_png_icon w h x y W H).width = w * (inject_icon w h x y W H).scale ∧
    (inject_png_icon w h x y W H).height = h * (inject_icon w h x y W H).scale := by
  have hw' : w ≠ 0 := hw.ne'
  have hh' : h ≠ 0 := hh.ne'
  have hscale : (inject_icon w h x y W H).scale = min (W / w) (H / h) := by
    simp [inject_icon, hw', hh']
  have hox : (inject_icon w h x y W H).offset_x
      = x + (W - w * min (W / w) (H / h)) / 2 := by
    simp [inject_icon, hw', hh']
  have hoy : (inject_icon w h x y W H).offset_y
      = y + (H - h * min (W / w) (H / h)) / 2 := by
    simp [inject_icon, hw', hh']
  refine ⟨hscale, ?_, ?_, ?_, ?_, ?_, ?_, ?_, ?_⟩
  · rw [hox, hscale]; ring
  · rw [hoy, hscale]; ring
  · intro hs
    rw [hscale] at hs
    rw [hox, hs]
    field_simp
  · intro hs
    rw [hscale] at hs
    rw [hoy, hs]
    field_simp
  · simp [inject_png_icon, inject_icon, hw', hh']
  · simp [inject_png_icon, inject_icon, hw', hh']
  · simp [inject_png_icon, inject_icon, hw', hh']
  · simp [inject_png_icon, inject_icon, hw', hh']

/-- Claim C6, witness: a 2 by 1 icon in a 4 by 4 square target. -/
theorem C6_aspect_ratio_witness :
    (inject_icon 2 1 0 0 4 4).scale = min (4/2 : ℚ) (4/1) ∧
    ((inject_icon 2 1 0 0 4 4).offset_x - 0
      = (0 + 4) - ((inject_icon 2 1 0 0 4 4).offset_x + 2 * (inject_icon 2 1 0 0 4 4).scale)) ∧
    ((inject_icon 2 1 0 0 4 4).offset_y - 0
      = (0 + 4) - ((inject_icon 2 1 0 0 4 4).offset_y + 1 * (inject_icon 2 1 0 0 4 4).scale)) ∧
    ((inject_icon 2 1 0 0 4 4).scale = 4/2 → (inject_icon 2 1 0 0 4 4).offset_x = 0) ∧
    ((inject_icon 2 1 0 0 4 4).scale = 4/1 → (inject_icon 2 1 0 0 4 4).offset_y = 0) ∧
    (inject_png_icon 2 1 0 0 4 4).x = (inject_icon 2 1 0 0 4 4).offset_x ∧
    (inject_png_icon 2 1 0 0 4 4).y = (inject_icon 2 1 0 0 4 4).offset_y ∧
    (inject_png_icon 2 1 0 0 4 4).width = 2 * (inject_icon 2 1 0 0 4 4).scale ∧
    (inject_png_icon 2 1 0 0 4 4).height = 1 * (inject_icon 2 1 0 0 4 4).scale :=
  C6_aspect_ratio 2 1 0 0 4 4 (by norm_num) (by norm_num)

/-! ## Claim C7: malformed-row tolerance -/

/-- A CSV row whose `x` cell is not a number. -/
def badRow : Row :=
  [("x", some "abc"), ("y", some "1"), ("width", some "2"), ("height", some "3")]

/-- Claim C7, counterexample: a row whose `x` field is the unparsable string
"abc" makes the layout calculation raise `ValueError` (from `float("abc")`)
instead of treating the row as absent. -/
theorem C7_counterexample :
    (calculate_layout [] (some [badRow]) ⟨0, 0, 100, 100, false, 3⟩ "A" [] 1 1 ""
      "landscape").2 = .error (.valueError "abc") := by rfl

theorem loadRows_raises (rows : List Row) : ∀ t : Table,
    (∃ row ∈ rows, (parseRect row).isOk = false) → (loadRows t rows).2.isSome := by
  induction rows with
  | nil => simp
  | cons row rest ih =>
      rintro t ⟨r0, hr0, hbad⟩
      rcases hp : parseRect row with e | v
      · simp [loadRows, hp]
      · simp only [loadRows, hp]
        apply ih
        rcases List.mem_cons.mp hr0 with h | h
        · subst h
          rw [hp] at hbad
          simp [Except.isOk, Except.toBool] at hbad
        · exact ⟨r0, h, hbad⟩

/-- A CSV row whose `x` column exists in the header but whose cell is
Python `None` (as `csv.DictReader` yields for a short row). -/
def noneCellRow : Row := [("x", none)]

/-- Claim C7 (amended): the layout calculation raises because of the tabular
data exactly when some row's numeric cell fails to convert — if every row's
x/y/width/height cells convert (columns absent from the header default to
0) or the file is missing, no error is raised; if some row has a present
but unparsable or `None` numeric cell, `float()` raises (`ValueError`,
resp. `TypeError`) and the error propagates out of the layout calculation;
in particular a short row's `None` cell raises `TypeError`. -/
theorem C7_malformed_rows_amended (t : Table) (file : Option (List Row))
    (bounds : SignBounds) (mode : String) (lines : List String) (iscale tscale : ℚ)
    (size orientation : String) :
    ((∀ rows, file = some rows → ∀ row ∈ rows, (parseRect row).isOk) →
      ((calculate_layout t file bounds mode lines iscale tscale size
        orientation).2).isOk) ∧
    (∀ rows, file = some rows → (∃ row ∈ rows, (parseRect row).isOk = false) →
      ∃ e, (calculate_layout t file bounds mode lines iscale tscale size
        orientation).2 = .error e) ∧
    (calculate_layout t (some [noneCellRow]) bounds mode lines iscale tscale size
      orientation).2 = .error GenError.typeError := by
  refine ⟨?_, ?_, ?_⟩
  · intro hfile
    cases file with
    | none => rfl
    | some rows =>
        have h := loadRows_ok rows t (hfile rows rfl)
        rcases hl : loadRows t rows with ⟨t2, err⟩
        rw [hl] at h
        simp only at h
        subst h
        simp [calculate_layout, load_layout_bounds, hl, Except.isOk, Except.toBool]
  · rintro rows rfl hbad
    have h := loadRows_raises rows t hbad
    obtain ⟨e, he⟩ := Option.isSome_iff_exists.mp h
    rcases hl : loadRows t rows with ⟨t2, err⟩
    rw [hl] at he
    simp only at he
    subst he
    exact ⟨e, by simp [calculate_layout, load_layout_bounds, hl]⟩
  · rfl

/-- A CSV row with no numeric columns in the header (all default to 0). -/
def C7goodRow : Row := [("template", some "x")]

/-- Claim C7, witness: the amended theorem applied to a one-row file whose
numeric fields all convert (no error) and to the one-row file holding
`badRow` (an error is raised). -/
theorem C7_malformed_rows_witness :
    ((calculate_layout [] (some [C7goodRow]) ⟨0, 0, 100, 100, false, 3⟩ "A" [] 1 1 ""
      "landscape").2).isOk ∧
    (∃ e, (calculate_layout [] (some [badRow]) ⟨0, 0, 100, 100, false, 3⟩ "A" [] 1 1 ""
      "landscape").2 = .error e) := by
  constructor
  · apply (C7_malformed_rows_amended [] (some [C7goodRow]) ⟨0, 0, 100, 100, false, 3⟩
      "A" [] 1 1 "" "landscape").1
    intro rows hr row hrow
    cases hr
    simp only [List.mem_singleton] at hrow
    subst hrow
    rfl
  · exact (C7_malformed_rows_amended [] (some [badRow]) ⟨0, 0, 100, 100, false, 3⟩
      "A" [] 1 1 "" "landscape").2.1 [badRow] rfl ⟨badRow, by simp, by rfl⟩

/-! ## Claim C8: fresh-read semantics -/

/-- A CSV row whose key is (main, saville, landscape, A, icon). -/
def C8row : Row :=
  [("size", some "saville"), ("layout_mode", some "A"), ("element", some "icon")]

/-- Claim C8, counterexample: after a call that loaded a row for the key
(main, saville, landscape, A, icon), a new layout-calculation call whose
CSV file no longer contains any row (the row was deleted) still consults a
table containing that key — the global dict is only ever added to, never
cleared, so stale entries survive the reload. -/
theorem C8_counterexample :
    tableLookup
      (calculate_layout (load_layout_bounds [] (some [C8row])).1 (some [])
        ⟨30, 24, 93, 73, false, 3⟩ "A" [] 1 1 "saville" "landscape").1
      (mkKey "main" "saville" "landscape" "A" "icon") = some ⟨0, 0, 0, 0⟩ := by rfl

/-- Claim C8 (amended): every layout-calculation call re-reads the CSV and
merges it into the in-memory table: after an error-free reload, a key maps
to the value of the last row the current file stores under it, and
otherwise to whatever earlier loads left in the table (entries whose rows
were deleted from the file persist); the reload is the only mutation the
layout calculation performs on the table. -/
theorem C8_reload_merge_amended (t : Table) (rows : List Row) (k : LayoutKey)
    (bounds : SignBounds) (mode : String) (lines : List String) (iscale tscale : ℚ)
    (size orientation : String)
    (hok : (load_layout_bounds t (some rows)).2 = none) :
    tableLookup (load_layout_bounds t (some rows)).1 k
      = optOr (fileValue rows k) (tableLookup t k) ∧
    (calculate_layout t (some rows) bounds mode lines iscale tscale size orientation).1
      = (load_layout_bounds t (some rows)).1 := by
  constructor
  · exact loadRows_lookup rows t k hok
  · rcases hl : loadRows t rows with ⟨t2, err⟩
    have h2 : err = none := by
      have h3 := hok
      simp only [load_layout_bounds, hl] at h3
      exact h3
    subst h2
    simp [calculate_layout, load_layout_bounds, hl]

/-- Claim C8, witness: the amended theorem on a one-row file over an empty
starting table. -/
theorem C8_reload_merge_witness :
    tableLookup (load_layout_bounds [] (some [C8row])).1
        (mkKey "main" "saville" "landscape" "A" "icon")
      = optOr (fileValue [C8row] (mkKey "main" "saville" "landscape" "A" "icon"))
          (tableLookup [] (mkKey "main" "saville" "landscape" "A" "icon")) ∧
    (calculate_layout [] (some [C8row]) ⟨30, 24, 93, 73, false, 3⟩ "A" [] 1 1 "saville"
        "landscape").1
      = (load_layout_bounds [] (some [C8row])).1 :=
  C8_reload_merge_amended [] [C8row] (mkKey "main" "saville" "landscape" "A" "icon")
    ⟨30, 24, 93, 73, false, 3⟩ "A" [] 1 1 "saville" "landscape" (by rfl)

/-! ## Claim C9: shared icon placement -/

/-- Claim C9: in both `generate_product_image` and
`generate_master_svg_for_product`, every icon that resolves to an asset is
injected at the identical placement rectangle — the offset-adjusted final
position and the layout's icon width and height, computed once per call. -/
theorem C9_shared_placement (env : RenderEnv) (t : Table) (file : Option (List Row))
    (p : Product) (template_type : String) (r rm : PlacementResult) :
    ((generate_product_image env t file p template_type).2 = .ok r →
      ∀ inj ∈ r.injections, inj.x = r.final_icon_x ∧ inj.y = r.final_icon_y ∧
        inj.width = r.layout.icon_width ∧ inj.height = r.layout.icon_height) ∧
    ((generate_master_svg_for_product env t file p).2 = .ok rm →
      ∀ inj ∈ rm.injections, inj.x = rm.final_icon_x ∧ inj.y = rm.final_icon_y ∧
        inj.width = rm.layout.icon_width ∧ inj.height = rm.layout.icon_height) := by
  constructor
  · intro hr inj hi
    rw [generate_product_image_injections env t file p template_type r hr] at hi
    exact injectIcons_mem _ _ _ _ _ _ _ hi
  · intro hm inj hi
    rw [generate_master_injections env t file p rm hm] at hi
    exact injectIcons_mem _ _ _ _ _ _ _ hi

/-- Environment for the C9 witness: one template on disk, two icons. -/
def wEnv : RenderEnv :=
  ⟨["silver_saville_main.svg"],
   fun f => if f = "a.svg" then some (.svg 100 50)
     else if f = "b.png" then some (.png 50 30) else none⟩

/-- Table for the C9 witness: a data-driven icon box for saville mode A. -/
def wTable : Table := [(mkKey "main" "saville" "landscape" "A" "icon", ⟨2, 3, 10, 20⟩)]

/-- Product for the C9 witness: two icon files, everything else defaulted. -/
def wProd : Product := { icon_files := some "a.svg,b.png" }

/-- The C9 witness run of `generate_product_image`. -/
def wR : PlacementResult :=
  match (generate_product_image wEnv wTable none wProd "main").2 with
  | .ok r => r
  | .error _ => ⟨⟨0, 0, 0, 0, []⟩, 0, 0, []⟩

/-- The C9 witness run of `generate_master_svg_for_product`. -/
def wRm : PlacementResult :=
  match (generate_master_svg_for_product wEnv wTable none wProd).2 with
  | .ok r => r
  | .error _ => ⟨⟨0, 0, 0, 0, []⟩, 0, 0, []⟩

/-- The first injection of the C9 witness run of `generate_product_image`. -/
def wInj : Injection :=
  ⟨"a.svg", wR.final_icon_x, wR.final_icon_y, wR.layout.icon_width, wR.layout.icon_height⟩

/-- The first injection of the C9 witness run of
`generate_master_svg_for_product`. -/
def wInjM : Injection :=
  ⟨"a.svg", wRm.final_icon_x, wRm.final_icon_y, wRm.layout.icon_width,
   wRm.layout.icon_height⟩

/-- Claim C9, witness: on a two-icon product both pipelines succeed and in
each the first injected icon sits at that pipeline's shared placement
rectangle. -/
theorem C9_shared_placement_witness :
    (wInj.x = wR.final_icon_x ∧ wInj.y = wR.final_icon_y ∧
      wInj.width = wR.layout.icon_width ∧ wInj.height = wR.layout.icon_height) ∧
    (wInjM.x = wRm.final_icon_x ∧ wInjM.y = wRm.final_icon_y ∧
      wInjM.width = wRm.layout.icon_width ∧ wInjM.height = wRm.layout.icon_height) :=
  ⟨(C9_shared_placement wEnv wTable none wProd "main" wR wRm).1 (by rfl) wInj
      (List.mem_cons_self _ _),
   (C9_shared_placement wEnv wTable none wProd "main" wR wRm).2 (by rfl) wInjM
      (List.mem_cons_self _ _)⟩

/-! ## Claim C10: dead fallback margin -/

/-- Claim C10: every size key in the compiled-in `SIZES` table also has a
compiled-in `TEMPLATE_SIGN_BOUNDS` override, so a key that passes the
`SIZES` lookup always takes the override branch of the geometry resolver
(the 20mm-margin fallback is unreachable) and resolution succeeds. -/
theorem C10_fallback_unreachable (size : String) (h : (SIZES.lookup size).isSome) :
    (TEMPLATE_SIGN_BOUNDS.lookup size).isSome ∧
    (get_sign_bounds size "landscape").isOk := by
  refine ⟨?_, ?_⟩
  · simp only [SIZES, TEMPLATE_SIGN_BOUNDS, List.lookup] at h ⊢
    repeat' split at h
    · simp_all
    · simp_all
    · simp_all
    · simp_all
    · simp_all
    · simp_all
  · unfold get_sign_bounds
    cases hl : SIZES.lookup size with
    | none => rw [hl] at h; simp at h
    | some v => rfl

/-- Claim C10, witness: the theorem at the key "dracula". -/
theorem C10_fallback_unreachable_witness :
    (TEMPLATE_SIGN_BOUNDS.lookup "dracula").isSome ∧
    (get_sign_bounds "dracula" "landscape").isOk :=
  C10_fallback_unreachable "dracula" (by decide)

end SignMaker
